import Mathlib

/-
  Shallow embedding of the Tari DHT store-and-forward handler
  (src/comms/dht/src/store_forward/saf_handler/task.rs).

  Public keys, node ids, secret keys and shared secrets are abstracted as
  naturals; byte strings and signatures as lists of naturals; timestamps as
  naturals.  The handler only compares these for equality / order, so this
  abstraction is faithful.  External collaborators (crypto primitives,
  serialization, the peer manager, the outbound service and the downstream
  middleware) are black boxes consumed through stated contracts; they are
  parameters of the model, collected in the `Env` structure.  Effects
  (outbound sends, downstream calls) are made explicit in an `Output` record.
-/

namespace Tari

abbrev PublicKey := Nat
abbrev NodeId := Nat
abbrev SecretKey := Nat
abbrev SharedSecret := Nat
abbrev Bytes := List Nat
abbrev Timestamp := Nat

/-- The destination declared in a DHT header (envelope.rs: `NodeDestination`). -/
inductive NodeDestination where
  | undisclosed
  | publicKey (dest_public_key : PublicKey)
  | nodeId (dest_node_id : NodeId)
  deriving DecidableEq

/-- DHT overlay message types.  The handler distinguishes the two SAF types;
every other type is collapsed into `other`, which carries the value its
(unsurveyed) `is_dht_message` implementation would return for it. -/
inductive DhtMessageType where
  | SAFRequestMessages
  | SAFStoredMessages
  | other (is_dht : Bool)
  deriving DecidableEq

/-- Modelled from the spec: the implementation of
`DhtMessageType::is_dht_message` is not in the surveyed source; the spec
states it returns true for overlay-control types, including both SAF types.
Non-SAF types carry their flag explicitly. -/
def DhtMessageType.is_dht_message : DhtMessageType → Bool
  | .SAFRequestMessages => true
  | .SAFStoredMessages => true
  | .other b => b

/-- The overlay header of a stored or inbound message (the fields the SAF
handler reads). -/
structure DhtHeader where
  origin_public_key : PublicKey
  origin_signature : Bytes
  destination : NodeDestination
  message_type : DhtMessageType
  deriving DecidableEq

/-- Transport-layer header; the handler only reads the sender public key. -/
structure CommsHeader where
  message_public_key : PublicKey
  deriving DecidableEq

/-- A peer record as returned by the peer manager. -/
structure Peer where
  node_id : NodeId
  public_key : PublicKey
  deriving DecidableEq

/-- A decrypted domain message; the handler reads its serialized body. -/
structure Message where
  body : Bytes
  deriving DecidableEq

/-- The unit of SAF storage (store_forward/message.rs: `StoredMessage`). -/
structure StoredMessage where
  version : Nat
  comms_header : CommsHeader
  dht_header : DhtHeader
  encrypted_body : Bytes
  stored_at : Timestamp
  deriving DecidableEq

/-- Modelled from the spec: `StoredMessagesRequest` (store_forward/message.rs
is not in the surveyed source) is a record with an optional `since`
timestamp. -/
structure StoredMessagesRequest where
  since : Option Timestamp
  deriving DecidableEq

/-- Modelled from the spec: `StoredMessagesResponse` is an ordered sequence
of stored messages (field `messages`, as the in-source test module also
shows). -/
structure StoredMessagesResponse where
  messages : List StoredMessage
  deriving DecidableEq

/-- An inbound DHT message (`DhtInboundMessage`), as constructed by
`DhtInboundMessage::new(dht_header, peer, comms_header, body)`. -/
structure DhtInboundMessage where
  dht_header : DhtHeader
  source_peer : Peer
  comms_header : CommsHeader
  body : Bytes
  deriving DecidableEq

def DhtInboundMessage.new (dht_header : DhtHeader) (source_peer : Peer)
    (comms_header : CommsHeader) (body : Bytes) : DhtInboundMessage :=
  ⟨dht_header, source_peer, comms_header, body⟩

/-- An inbound envelope after the outer decryption attempt
(`DecryptedDhtMessage`): `decryption_result` is `some` exactly when the outer
decryption succeeded. -/
structure DecryptedDhtMessage where
  source_peer : Peer
  comms_header : CommsHeader
  dht_header : DhtHeader
  decryption_result : Option Message
  deriving DecidableEq

/-- `DecryptedDhtMessage::succeeded(decrypted, inbound)`. -/
def DecryptedDhtMessage.succeeded (decrypted : Message) (inbound : DhtInboundMessage) :
    DecryptedDhtMessage :=
  ⟨inbound.source_peer, inbound.comms_header, inbound.dht_header, some decrypted⟩

/-- `DecryptedDhtMessage::success()`: the decrypted body, when decryption
succeeded. -/
def DecryptedDhtMessage.success (m : DecryptedDhtMessage) : Option Message :=
  m.decryption_result

/-- `DecryptedDhtMessage::decryption_failed()`. -/
def DecryptedDhtMessage.decryption_failed (m : DecryptedDhtMessage) : Bool :=
  m.decryption_result.isNone

/-- Peer manager errors the handler distinguishes. -/
inductive PeerManagerError where
  | peerNotFoundError
  | otherError (code : Nat)
  deriving DecidableEq

/-- `StoreAndForwardError` (store_forward/error.rs), restricted to the
variants this handler produces.  `messageFormatError` is the conversion of a
serialization failure; `decryptionFailed` is the conversion of a cipher
failure (modelled from the spec: any decrypt / inner-deserialize failure maps
to `DecryptionFailed`). -/
inductive StoreAndForwardError where
  | messageFormatError
  | invalidDestination
  | invalidSignature
  | decryptionFailed
  | peerManagerError (e : PeerManagerError)
  | outboundSendError
  deriving DecidableEq

/-- A pipeline (middleware) error: either a lifted SAF handler error or
an error produced by another middleware (e.g. the downstream stage). -/
inductive MiddlewareError where
  | saf (e : StoreAndForwardError)
  | middleware (code : Nat)
  deriving DecidableEq

/-- `BroadcastStrategy`, restricted to the variant this handler uses. -/
inductive BroadcastStrategy where
  | directPublicKey (pk : PublicKey)
  deriving DecidableEq

/-- `OutboundEncryption`, restricted to the variant this handler uses. -/
inductive OutboundEncryption where
  | encryptForDestination
  deriving DecidableEq

/-- One invocation of `OutboundMessageRequester::send_message`, with the
arguments the handler passes. -/
structure OutboundSend where
  broadcast_strategy : BroadcastStrategy
  destination : NodeDestination
  encryption : OutboundEncryption
  message_type : DhtMessageType
  body : StoredMessagesResponse
  deriving DecidableEq

/-- One entry of the SAF storage: key, message and absolute expiry instant. -/
structure StoreEntry where
  key : Bytes
  msg : StoredMessage
  expiry : Timestamp
  deriving DecidableEq

/-- The SAF storage content, as observed through its iteration interface. -/
abbrev SAFStorage := List StoreEntry

/-- Modelled from the spec: `SAFStorage::iter` (the store implementation is
not in the surveyed source) yields the key/message pairs of all
currently-unexpired entries, i.e. those with `now < expiry_instant`. -/
def SAFStorage.iter (now : Timestamp) (store : SAFStorage) : List (Bytes × StoredMessage) :=
  (store.filter (fun e => decide (now < e.expiry))).map (fun e => (e.key, e.msg))

/-- The external collaborators consumed by the handler, as black-box
functions with the contracts the source relies on. -/
structure Env where
  /-- signature::verify — may itself fail, otherwise reports validity. -/
  verify : PublicKey → Bytes → Bytes → Except Unit Bool
  /-- crypt::generate_ecdh_secret. -/
  generate_ecdh_secret : SecretKey → PublicKey → SharedSecret
  /-- crypt::decrypt. -/
  decrypt : SharedSecret → Bytes → Except Unit Bytes
  /-- Message::from_binary. -/
  message_from_binary : Bytes → Except Unit Message
  /-- StoredMessagesRequest::from_binary. -/
  request_from_binary : Bytes → Except Unit StoredMessagesRequest
  /-- StoredMessagesResponse::from_binary. -/
  response_from_binary : Bytes → Except Unit StoredMessagesResponse
  /-- PeerManager::in_network_region. -/
  in_network_region : NodeId → NodeId → Nat → Except PeerManagerError Bool
  /-- PeerManager::find_with_public_key. -/
  find_with_public_key : PublicKey → Except PeerManagerError Peer
  /-- The downstream middleware (`next_service.oneshot` / `call_all`). -/
  next_service : DecryptedDhtMessage → Except MiddlewareError Unit
  /-- Result of `outbound_service.send_message` for this task. -/
  send_result : Except Unit Unit

/-- The configuration keys the handler reads. -/
structure DhtConfig where
  saf_num_closest_nodes : Nat
  saf_max_returned_messages : Nat
  deriving DecidableEq

/-- `NodeIdentity`: this node's identity and key material. -/
structure NodeIdentity where
  node_id : NodeId
  public_key : PublicKey
  secret_key : SecretKey
  deriving DecidableEq

/-- The state captured by a `MessageHandlerTask`, with the wall clock made
explicit. -/
structure MessageHandlerTask where
  config : DhtConfig
  env : Env
  node_identity : NodeIdentity
  store : SAFStorage
  now : Timestamp

/-- The observable outcome of a handler invocation: its returned result, the
outbound sends it performed, the messages it passed to the downstream stage,
the resulting store content, and whether an `expect` panicked. -/
structure Output (ε : Type) where
  result : Except ε Unit
  outbound : List OutboundSend
  downstream : List DecryptedDhtMessage
  store : SAFStorage
  panicked : Bool

/-- `MessageHandlerTask::check_destination`. -/
def check_destination (node_identity : NodeIdentity) (msg : StoredMessage) :
    Except StoreAndForwardError Unit :=
  match msg.dht_header.destination with
  | .undisclosed => .ok ()
  | .publicKey pk => if node_identity.public_key = pk then .ok () else .error .invalidDestination
  | .nodeId nid => if node_identity.node_id = nid then .ok () else .error .invalidDestination

/-- `MessageHandlerTask::check_signature`: a verification error and a
verification returning false both map to `InvalidSignature`. -/
def check_signature (env : Env) (msg : StoredMessage) : Except StoreAndForwardError Unit :=
  match env.verify msg.dht_header.origin_public_key msg.dht_header.origin_signature
      msg.encrypted_body with
  | .error _ => .error .invalidSignature
  | .ok true => .ok ()
  | .ok false => .error .invalidSignature

/-- `MessageHandlerTask::try_decrypt`: ECDH shared secret, symmetric decrypt,
then inner deserialization; any failure is `DecryptionFailed`. -/
def try_decrypt (env : Env) (node_identity : NodeIdentity) (msg : StoredMessage) :
    Except StoreAndForwardError Message :=
  match env.decrypt (env.generate_ecdh_secret node_identity.secret_key
      msg.dht_header.origin_public_key) msg.encrypted_body with
  | .error _ => .error .decryptionFailed
  | .ok decrypted_bytes =>
    match env.message_from_binary decrypted_bytes with
    | .error _ => .error .decryptionFailed
    | .ok m => .ok m

/-- `MessageHandlerTask::process_incoming_stored_message`: the body of the
per-entry blocking task, with the `?` early returns written as matches. -/
def process_incoming_stored_message (t : MessageHandlerTask) (message : StoredMessage) :
    Except StoreAndForwardError DecryptedDhtMessage :=
  match check_destination t.node_identity message with
  | .error e => .error e
  | .ok _ =>
    match check_signature t.env message with
    | .error e => .error e
    | .ok _ =>
      match try_decrypt t.env t.node_identity message with
      | .error e => .error e
      | .ok decrypted_message =>
        match t.env.find_with_public_key message.dht_header.origin_public_key with
        | .error e => .error (.peerManagerError e)
        | .ok peer =>
          .ok (DecryptedDhtMessage.succeeded decrypted_message
            (DhtInboundMessage.new message.dht_header peer message.comms_header []))

/-- `MessageHandlerTask::handle_stored_messages_request`.  The `.expect` on
`message.success()` is modelled by the `panicked` flag. -/
def handle_stored_messages_request (t : MessageHandlerTask) (message : DecryptedDhtMessage) :
    Output StoreAndForwardError :=
  match message.success with
  | none => { result := .ok (), outbound := [], downstream := [], store := t.store, panicked := true }
  | some msg =>
    match t.env.request_from_binary msg.body with
    | .error _ =>
      { result := .error .messageFormatError, outbound := [], downstream := [],
        store := t.store, panicked := false }
    | .ok retrieve_msgs =>
      match t.env.in_network_region message.source_peer.node_id t.node_identity.node_id
          t.config.saf_num_closest_nodes with
      | .error e =>
        { result := .error (.peerManagerError e), outbound := [], downstream := [],
          store := t.store, panicked := false }
      | .ok false =>
        { result := .ok (), outbound := [], downstream := [], store := t.store, panicked := false }
      | .ok true =>
        let messages :=
          ((((SAFStorage.iter t.now t.store).filter
              (fun kv => match retrieve_msgs.since with
                | some since => decide (since ≤ kv.2.stored_at)
                | none => true)).filter
              (fun kv => match kv.2.dht_header.destination with
                | .undisclosed => true
                | .publicKey dest_public_key => decide (dest_public_key = message.source_peer.public_key)
                | .nodeId dest_node_id => decide (dest_node_id = message.source_peer.node_id))).take
              t.config.saf_max_returned_messages).map (fun kv => kv.2)
        let stored_messages : StoredMessagesResponse := ⟨messages⟩
        let send : OutboundSend :=
          { broadcast_strategy := .directPublicKey message.source_peer.public_key,
            destination := .undisclosed,
            encryption := .encryptForDestination,
            message_type := .SAFStoredMessages,
            body := stored_messages }
        match t.env.send_result with
        | .error _ =>
          { result := .error .outboundSendError, outbound := [send], downstream := [],
            store := t.store, panicked := false }
        | .ok _ =>
          { result := .ok (), outbound := [send], downstream := [], store := t.store,
            panicked := false }

/-- `MessageHandlerTask::handle_stored_messages`: parse the outer response,
process every entry, push the successful ones downstream (their per-call
results are only logged), and return success. -/
def handle_stored_messages (t : MessageHandlerTask) (message : DecryptedDhtMessage) :
    Output StoreAndForwardError :=
  match message.success with
  | none => { result := .ok (), outbound := [], downstream := [], store := t.store, panicked := true }
  | some msg =>
    match t.env.response_from_binary msg.body with
    | .error _ =>
      { result := .error .messageFormatError, outbound := [], downstream := [],
        store := t.store, panicked := false }
    | .ok response =>
      let successful_msgs :=
        (response.messages.map (fun m => process_incoming_stored_message t m)).filterMap
          (fun r => r.toOption)
      { result := .ok (), outbound := [], downstream := successful_msgs, store := t.store,
        panicked := false }

/-- Lift a sub-handler outcome into the pipeline error type (the `?` in
`run`). -/
def liftSaf (o : Output StoreAndForwardError) : Output MiddlewareError :=
  { result := match o.result with
      | .ok u => .ok u
      | .error e => .error (.saf e),
    outbound := o.outbound, downstream := o.downstream, store := o.store,
    panicked := o.panicked }

/-- `MessageHandlerTask::run`: the dispatcher. -/
def run (t : MessageHandlerTask) (message : DecryptedDhtMessage) : Output MiddlewareError :=
  if message.dht_header.message_type.is_dht_message && message.decryption_failed then
    { result := .ok (), outbound := [], downstream := [], store := t.store, panicked := false }
  else
    match message.dht_header.message_type with
    | .SAFRequestMessages => liftSaf (handle_stored_messages_request t message)
    | .SAFStoredMessages => liftSaf (handle_stored_messages t message)
    | .other _ =>
      { result := t.env.next_service message, outbound := [], downstream := [message],
        store := t.store, panicked := false }

/-
  Spec-side definitions.  These follow the wording of the specification (and
  of the claims) rather than the source, and are compared with the
  source-embedded definitions above.
-/

/-- Spec wording: the `since` filter retains an entry iff `since` is `None`
or `stored_at ≥ since`. -/
def specSinceOk (since : Option Timestamp) (m : StoredMessage) : Bool :=
  match since with
  | none => true
  | some s => decide (m.stored_at ≥ s)

/-- Spec wording: destination matching against a requesting peer:
`Undisclosed` always matches; `PublicKey(P)` iff `P` equals the requester's
public key; `NodeId(N)` iff `N` equals the requester's node id. -/
def specDestinationMatches (requester : Peer) (m : StoredMessage) : Bool :=
  match m.dht_header.destination with
  | .undisclosed => true
  | .publicKey p => decide (p = requester.public_key)
  | .nodeId n => decide (n = requester.node_id)

/-- Spec wording (C1): the unexpired store entries that satisfy the `since`
filter and whose declared destination matches the requester. -/
def specFilteredEntries (now : Timestamp) (store : SAFStorage) (since : Option Timestamp)
    (requester : Peer) : List StoredMessage :=
  ((store.filter (fun e => decide (now < e.expiry))).map StoreEntry.msg).filter
    (fun m => specSinceOk since m && specDestinationMatches requester m)

/-- Spec wording: destination matching against the local identity. -/
def specDestinationSelf (node_identity : NodeIdentity) (m : StoredMessage) : Bool :=
  match m.dht_header.destination with
  | .undisclosed => true
  | .publicKey p => decide (p = node_identity.public_key)
  | .nodeId n => decide (n = node_identity.node_id)

/-- Spec wording: the origin signature verifies over the encrypted body under
the origin public key. -/
def specSignatureValid (env : Env) (m : StoredMessage) : Bool :=
  match env.verify m.dht_header.origin_public_key m.dht_header.origin_signature
      m.encrypted_body with
  | .ok true => true
  | .ok false => false
  | .error _ => false

/-- Spec wording: derive the ECDH shared secret, decrypt the encrypted body
and deserialize it to the inner message; `none` on any failure. -/
def specDecryptedInner (env : Env) (node_identity : NodeIdentity) (m : StoredMessage) :
    Option Message :=
  match env.decrypt (env.generate_ecdh_secret node_identity.secret_key
      m.dht_header.origin_public_key) m.encrypted_body with
  | .error _ => none
  | .ok decrypted_bytes =>
    match env.message_from_binary decrypted_bytes with
    | .error _ => none
    | .ok inner => some inner

/-- Spec wording: the origin peer is found in the peer directory. -/
def specOriginKnown (env : Env) (m : StoredMessage) : Bool :=
  match env.find_with_public_key m.dht_header.origin_public_key with
  | .ok _ => true
  | .error _ => false

/-- Spec wording (C2): an entry is forwardable iff its destination matches
self, its origin signature verifies, decryption and inner deserialization
succeed, and the origin peer is known. -/
def specEntryForwardable (env : Env) (node_identity : NodeIdentity) (m : StoredMessage) : Bool :=
  specDestinationSelf node_identity m && specSignatureValid env m &&
    (specDecryptedInner env node_identity m).isSome && specOriginKnown env m

/-- Spec wording (C3): per-entry processing performs destination check,
signature check, decryption and peer lookup in that order and returns the
error of the first failing step. -/
def process_incoming_spec (t : MessageHandlerTask) (m : StoredMessage) :
    Except StoreAndForwardError DecryptedDhtMessage :=
  if specDestinationSelf t.node_identity m then
    if specSignatureValid t.env m then
      match specDecryptedInner t.env t.node_identity m with
      | none => .error .decryptionFailed
      | some inner =>
        match t.env.find_with_public_key m.dht_header.origin_public_key with
        | .error e => .error (.peerManagerError e)
        | .ok peer =>
          .ok (DecryptedDhtMessage.succeeded inner
            (DhtInboundMessage.new m.dht_header peer m.comms_header []))
    else .error .invalidSignature
  else .error .invalidDestination

/-
  Helper lemmas shared by the claim theorems.
-/

theorem check_destination_eq (node_identity : NodeIdentity) (m : StoredMessage) :
    check_destination node_identity m =
      if specDestinationSelf node_identity m then .ok () else .error .invalidDestination := by
  unfold check_destination specDestinationSelf
  cases m.dht_header.destination with
  | undisclosed => rfl
  | publicKey p =>
    by_cases h : p = node_identity.public_key
    · simp [h]
    · simp [h, Ne.symm h]
  | nodeId n =>
    by_cases h : n = node_identity.node_id
    · simp [h]
    · simp [h, Ne.symm h]

theorem check_signature_eq (env : Env) (m : StoredMessage) :
    check_signature env m =
      if specSignatureValid env m then .ok () else .error .invalidSignature := by
  unfold check_signature specSignatureValid
  rcases h : env.verify m.dht_header.origin_public_key m.dht_header.origin_signature
      m.encrypted_body with e | b
  · rfl
  · cases b <;> rfl

theorem try_decrypt_eq (env : Env) (node_identity : NodeIdentity) (m : StoredMessage) :
    try_decrypt env node_identity m =
      match specDecryptedInner env node_identity m with
      | none => .error .decryptionFailed
      | some inner => .ok inner := by
  unfold try_decrypt specDecryptedInner
  rcases h : env.decrypt (env.generate_ecdh_secret node_identity.secret_key
      m.dht_header.origin_public_key) m.encrypted_body with e | bs
  · rfl
  · rcases h2 : env.message_from_binary bs with e2 | inner <;> simp [h2]

theorem process_incoming_eq_spec (t : MessageHandlerTask) (m : StoredMessage) :
    process_incoming_stored_message t m = process_incoming_spec t m := by
  unfold process_incoming_stored_message process_incoming_spec
  rw [check_destination_eq, check_signature_eq, try_decrypt_eq]
  by_cases hd : specDestinationSelf t.node_identity m
  · by_cases hs : specSignatureValid t.env m
    · rcases hi : specDecryptedInner t.env t.node_identity m with _ | inner <;>
        simp [hd, hs, hi]
    · simp [hd, hs]
  · simp [hd]

theorem process_toOption_isSome (t : MessageHandlerTask) (m : StoredMessage) :
    (process_incoming_stored_message t m).toOption.isSome =
      specEntryForwardable t.env t.node_identity m := by
  rw [process_incoming_eq_spec]
  unfold process_incoming_spec specEntryForwardable specOriginKnown
  by_cases hd : specDestinationSelf t.node_identity m
  · by_cases hs : specSignatureValid t.env m
    · rcases hi : specDecryptedInner t.env t.node_identity m with _ | inner
      · simp [hd, hs, hi, Except.toOption]
      · rcases hp : t.env.find_with_public_key m.dht_header.origin_public_key with e | peer <;>
          simp [hd, hs, hi, hp, Except.toOption]
    · simp [hd, hs, Except.toOption]
  · simp [hd, Except.toOption]

theorem length_filterMap_isSome {α β : Type} (f : α → Option β) (l : List α) :
    (l.filterMap f).length = (l.filter (fun a => (f a).isSome)).length := by
  induction l with
  | nil => rfl
  | cons a l ih =>
    rcases h : f a with _ | b <;>
      simp [List.filterMap_cons, List.filter_cons, h, ih]

theorem handle_request_panicked_false (t : MessageHandlerTask) (message : DecryptedDhtMessage)
    (msg : Message) (hsucc : message.success = some msg) :
    (handle_stored_messages_request t message).panicked = false := by
  unfold handle_stored_messages_request
  rw [hsucc]
  rcases hp : t.env.request_from_binary msg.body with e | req
  · simp [hp]
  · rcases hr : t.env.in_network_region message.source_peer.node_id t.node_identity.node_id
        t.config.saf_num_closest_nodes with e | b
    · simp [hp, hr]
    · cases b
      · simp [hp, hr]
      · rcases hsend : t.env.send_result with e | u <;> simp [hp, hr, hsend]

theorem handle_response_panicked_false (t : MessageHandlerTask) (message : DecryptedDhtMessage)
    (msg : Message) (hsucc : message.success = some msg) :
    (handle_stored_messages t message).panicked = false := by
  unfold handle_stored_messages
  rw [hsucc]
  rcases hp : t.env.response_from_binary msg.body with e | resp <;> simp [hp]

/-- The message list the request handler compiles equals the spec-side
filtered entries, truncated to the cap. -/
theorem handler_messages_eq (now : Timestamp) (store : SAFStorage) (since : Option Timestamp)
    (requester : Peer) (n : Nat) :
    ((((SAFStorage.iter now store).filter
        (fun kv => match since with
          | some s => decide (s ≤ kv.2.stored_at)
          | none => true)).filter
        (fun kv => match kv.2.dht_header.destination with
          | .undisclosed => true
          | .publicKey dest_public_key => decide (dest_public_key = requester.public_key)
          | .nodeId dest_node_id => decide (dest_node_id = requester.node_id))).take n).map
      (fun kv => kv.2) =
    (specFilteredEntries now store since requester).take n := by
  rw [List.map_take, List.filter_filter]
  unfold SAFStorage.iter specFilteredEntries
  rw [List.filter_map, List.map_map, List.filter_map]
  have hpt : ∀ e ∈ (store.filter (fun e => decide (now < e.expiry))),
      (((fun kv : Bytes × StoredMessage =>
          (match kv.2.dht_header.destination with
            | .undisclosed => true
            | .publicKey dest_public_key => decide (dest_public_key = requester.public_key)
            | .nodeId dest_node_id => decide (dest_node_id = requester.node_id)) &&
          (match since with
            | some s => decide (s ≤ kv.2.stored_at)
            | none => true)) ∘ fun e => (e.key, e.msg)) e) =
      (((fun m => specSinceOk since m && specDestinationMatches requester m) ∘
          StoreEntry.msg) e) := by
    intro e _
    show ((match e.msg.dht_header.destination with
        | .undisclosed => true
        | .publicKey dest_public_key => decide (dest_public_key = requester.public_key)
        | .nodeId dest_node_id => decide (dest_node_id = requester.node_id)) &&
      (match since with
        | some s => decide (s ≤ e.msg.stored_at)
        | none => true)) =
      (specSinceOk since e.msg && specDestinationMatches requester e.msg)
    unfold specSinceOk specDestinationMatches
    cases since with
    | none => simp
    | some s =>
      rw [Bool.and_comm]
  rw [List.filter_congr hpt]
  rfl

/-
  Concrete fixtures used to witness the claim theorems on specific inputs.
-/

def egStoredHeader : DhtHeader := ⟨7, [1], .undisclosed, .other false⟩

def egStored : StoredMessage := ⟨0, ⟨7⟩, egStoredHeader, [4], 10⟩

def egEnv : Env where
  verify := fun _ sig _ => if sig = [9] then .error () else .ok (decide (sig = [1]))
  generate_ecdh_secret := fun sk pk => sk + pk
  decrypt := fun _ body => if body = [9] then .error () else .ok body
  message_from_binary := fun bs => if bs = [8] then .error () else .ok ⟨bs⟩
  request_from_binary := fun bs => if bs = [0] then .ok ⟨none⟩ else .error ()
  response_from_binary := fun bs => if bs = [1] then .ok ⟨[egStored]⟩ else .error ()
  in_network_region := fun nid self _ => .ok (decide (nid = self))
  find_with_public_key := fun pk => if pk = 7 then .ok ⟨3, 7⟩ else .error .peerNotFoundError
  next_service := fun _ => .ok ()
  send_result := .ok ()

def egTask : MessageHandlerTask := ⟨⟨8, 3⟩, egEnv, ⟨2, 20, 100⟩, [⟨[0], egStored, 50⟩], 10⟩

def egRequestMsg : DecryptedDhtMessage :=
  ⟨⟨2, 7⟩, ⟨7⟩, ⟨7, [1], .undisclosed, .SAFRequestMessages⟩, some ⟨[0]⟩⟩

def egOutRequestMsg : DecryptedDhtMessage :=
  ⟨⟨3, 7⟩, ⟨7⟩, ⟨7, [1], .undisclosed, .SAFRequestMessages⟩, some ⟨[0]⟩⟩

def egResponseMsg : DecryptedDhtMessage :=
  ⟨⟨2, 7⟩, ⟨7⟩, ⟨7, [1], .undisclosed, .SAFStoredMessages⟩, some ⟨[1]⟩⟩

def egOtherMsg : DecryptedDhtMessage :=
  ⟨⟨2, 7⟩, ⟨7⟩, ⟨7, [1], .undisclosed, .other false⟩, some ⟨[0]⟩⟩

def egDroppedMsg : DecryptedDhtMessage :=
  ⟨⟨2, 7⟩, ⟨7⟩, ⟨7, [1], .undisclosed, .other true⟩, none⟩

def egForwarded : DecryptedDhtMessage := ⟨⟨3, 7⟩, ⟨7⟩, egStoredHeader, some ⟨[4]⟩⟩

/-
  Claim theorems.
-/

/-- C3: processing a single stored message entry performs the checks in the
order destination check, signature check, decrypt, peer lookup, and returns
the error of the first failing step (`InvalidDestination` when the
destination does not match self, `InvalidSignature` when the signature fails
to verify, `DecryptionFailed` when decryption or inner deserialization fails,
and the peer-manager lookup error — peer-not-found — when the origin public
key is unknown); the result is a success carrying the decrypted inner message
only when all four steps succeed.  Stated as: the source processing function
coincides with the spec-shaped `process_incoming_spec`. -/
theorem C3_process_entry_check_order (t : MessageHandlerTask) (m : StoredMessage) :
    process_incoming_stored_message t m = process_incoming_spec t m :=
  process_incoming_eq_spec t m

/-- C7: an inbound message whose type is a DHT message and whose outer
decryption failed is dropped silently: `run` returns success, invokes no
sub-handler and no downstream stage, sends nothing, and leaves the store
unchanged. -/
theorem C7_failed_decryption_dropped (t : MessageHandlerTask) (message : DecryptedDhtMessage)
    (hdht : message.dht_header.message_type.is_dht_message = true)
    (hfail : message.decryption_failed = true) :
    run t message =
      { result := .ok (), outbound := [], downstream := [], store := t.store,
        panicked := false } := by
  unfold run
  rw [hdht, hfail]
  simp

theorem C7_witness :
    egDroppedMsg.dht_header.message_type.is_dht_message = true ∧
    egDroppedMsg.decryption_failed = true ∧
    run egTask egDroppedMsg =
      { result := .ok (), outbound := [], downstream := [], store := egTask.store,
        panicked := false } :=
  ⟨rfl, rfl, C7_failed_decryption_dropped egTask egDroppedMsg rfl rfl⟩

/-- C6: an inbound message of non-SAF type that is not dropped by the
failed-decryption rule is passed unmodified to the downstream stage exactly
once, with no outbound traffic, the store unchanged, and `run` returning the
downstream result. -/
theorem C6_non_saf_passthrough (t : MessageHandlerTask) (message : DecryptedDhtMessage)
    (b : Bool)
    (htype : message.dht_header.message_type = .other b)
    (hdrop : ¬(message.dht_header.message_type.is_dht_message = true ∧
      message.decryption_failed = true)) :
    run t message =
      { result := t.env.next_service message, outbound := [], downstream := [message],
        store := t.store, panicked := false } := by
  unfold run
  have hcond : (message.dht_header.message_type.is_dht_message &&
      message.decryption_failed) = false := by
    rcases h1 : message.dht_header.message_type.is_dht_message
    · simp
    · rcases h2 : message.decryption_failed
      · simp
      · exact absurd ⟨h1, h2⟩ hdrop
  rw [hcond]
  simp [htype]

theorem C6_witness :
    egOtherMsg.dht_header.message_type = .other false ∧
    ¬(egOtherMsg.dht_header.message_type.is_dht_message = true ∧
      egOtherMsg.decryption_failed = true) ∧
    run egTask egOtherMsg =
      { result := egTask.env.next_service egOtherMsg, outbound := [],
        downstream := [egOtherMsg], store := egTask.store, panicked := false } :=
  ⟨rfl, by decide, C6_non_saf_passthrough egTask egOtherMsg false rfl (by decide)⟩

/-- C8: a `SafRequestMessages` request from a requester outside this node's
network region is refused silently: the handler returns success, emits no
outbound message, calls no downstream stage, and leaves the store
unchanged. -/
theorem C8_out_of_region_refused (t : MessageHandlerTask) (message : DecryptedDhtMessage)
    (msg : Message) (req : StoredMessagesRequest)
    (hsucc : message.success = some msg)
    (hparse : t.env.request_from_binary msg.body = .ok req)
    (hregion : t.env.in_network_region message.source_peer.node_id t.node_identity.node_id
        t.config.saf_num_closest_nodes = .ok false) :
    handle_stored_messages_request t message =
      { result := .ok (), outbound := [], downstream := [], store := t.store,
        panicked := false } := by
  unfold handle_stored_messages_request
  simp [hsucc, hparse, hregion]

theorem C8_witness :
    egOutRequestMsg.success = some ⟨[0]⟩ ∧
    egTask.env.request_from_binary (Message.mk [0]).body = .ok ⟨none⟩ ∧
    egTask.env.in_network_region egOutRequestMsg.source_peer.node_id
      egTask.node_identity.node_id egTask.config.saf_num_closest_nodes = .ok false ∧
    handle_stored_messages_request egTask egOutRequestMsg =
      { result := .ok (), outbound := [], downstream := [], store := egTask.store,
        panicked := false } :=
  ⟨rfl, rfl, rfl,
    C8_out_of_region_refused egTask egOutRequestMsg ⟨[0]⟩ ⟨none⟩ rfl rfl rfl⟩

/-- C9: a stored entry that passes all checks is pushed downstream as a
message whose source peer is the peer found in the peer directory under the
entry's origin public key (the origin, not the relay), and whose decrypted
body is the decrypted inner message of that entry. -/
theorem C9_forwarded_source_is_origin (t : MessageHandlerTask) (m : StoredMessage)
    (d : DecryptedDhtMessage)
    (h : process_incoming_stored_message t m = .ok d) :
    t.env.find_with_public_key m.dht_header.origin_public_key = .ok d.source_peer ∧
    ∃ inner, specDecryptedInner t.env t.node_identity m = some inner ∧
      d.decryption_result = some inner := by
  rw [process_incoming_eq_spec] at h
  unfold process_incoming_spec at h
  by_cases hd : specDestinationSelf t.node_identity m
  · rw [if_pos hd] at h
    by_cases hs : specSignatureValid t.env m
    · rw [if_pos hs] at h
      rcases hi : specDecryptedInner t.env t.node_identity m with _ | inner
      · rw [hi] at h; cases h
      · rw [hi] at h
        rcases hp : t.env.find_with_public_key m.dht_header.origin_public_key with e | peer
        · rw [hp] at h; cases h
        · rw [hp] at h
          cases h
          exact ⟨rfl, inner, rfl, rfl⟩
    · rw [if_neg hs] at h; cases h
  · rw [if_neg hd] at h; cases h

theorem C9_witness :
    process_incoming_stored_message egTask egStored = .ok egForwarded ∧
    (egTask.env.find_with_public_key egStored.dht_header.origin_public_key =
        .ok egForwarded.source_peer ∧
      ∃ inner, specDecryptedInner egTask.env egTask.node_identity egStored = some inner ∧
        egForwarded.decryption_result = some inner) :=
  ⟨rfl, C9_forwarded_source_is_origin egTask egStored egForwarded rfl⟩

/-- C10: every message dispatched to a SAF sub-handler decrypted
successfully, so the `success().expect(...)` calls never panic: both SAF
message types satisfy `is_dht_message`, and the guard at the top of `run`
drops any DHT-typed message whose decryption failed before dispatch; hence
`run` never reaches a panicking `expect`. -/
theorem C10_expect_never_panics (t : MessageHandlerTask) (message : DecryptedDhtMessage) :
    DhtMessageType.is_dht_message .SAFRequestMessages = true ∧
    DhtMessageType.is_dht_message .SAFStoredMessages = true ∧
    (run t message).panicked = false := by
  refine ⟨rfl, rfl, ?_⟩
  unfold run
  by_cases hc : (message.dht_header.message_type.is_dht_message &&
      message.decryption_failed) = true
  · rw [if_pos hc]
  · rw [if_neg hc]
    cases htype : message.dht_header.message_type with
    | SAFRequestMessages =>
      rw [htype] at hc
      simp only [DhtMessageType.is_dht_message, Bool.true_and] at hc
      rcases hr : message.decryption_result with _ | msg
      · exact absurd (by unfold DecryptedDhtMessage.decryption_failed; rw [hr]; rfl) hc
      · show (liftSaf (handle_stored_messages_request t message)).panicked = false
        unfold liftSaf
        exact handle_request_panicked_false t message msg hr
    | SAFStoredMessages =>
      rw [htype] at hc
      simp only [DhtMessageType.is_dht_message, Bool.true_and] at hc
      rcases hr : message.decryption_result with _ | msg
      · exact absurd (by unfold DecryptedDhtMessage.decryption_failed; rw [hr]; rfl) hc
      · show (liftSaf (handle_stored_messages t message)).panicked = false
        unfold liftSaf
        exact handle_response_panicked_false t message msg hr
    | other b => rfl

/-- C4: the stored-messages response handler returns an error to its caller
only when the outer body fails to parse as a `StoredMessagesResponse`; every
per-entry failure and every downstream-stage error is absorbed, and the
handler returns success after all entries are processed. -/
theorem C4_response_handler_absorbs (t : MessageHandlerTask) (message : DecryptedDhtMessage)
    (msg : Message) (hsucc : message.success = some msg) :
    ((handle_stored_messages t message).result = .ok () ↔
      ∃ r, t.env.response_from_binary msg.body = .ok r) ∧
    (∀ e, t.env.response_from_binary msg.body = .error e →
      (handle_stored_messages t message).result = .error .messageFormatError) := by
  unfold handle_stored_messages
  simp only [hsucc]
  rcases hp : t.env.response_from_binary msg.body with e | resp <;> simp only [hp] <;> simp

theorem C4_witness :
    egResponseMsg.success = some ⟨[1]⟩ ∧
    (((handle_stored_messages egTask egResponseMsg).result = .ok () ↔
      ∃ r, egTask.env.response_from_binary (Message.mk [1]).body = .ok r) ∧
    (∀ e, egTask.env.response_from_binary (Message.mk [1]).body = .error e →
      (handle_stored_messages egTask egResponseMsg).result = .error .messageFormatError)) :=
  ⟨rfl, C4_response_handler_absorbs egTask egResponseMsg ⟨[1]⟩ rfl⟩

/-- C2: an entry of a received `SafStoredMessages` response is forwarded to
the downstream stage iff its destination matches the local identity, its
origin signature verifies, ECDH decryption and inner deserialization succeed,
and the origin peer is found in the peer directory; and each entry is
forwarded at most once (the number of downstream calls equals the number of
entries passing all checks). -/
theorem C2_entry_forwarded_iff (t : MessageHandlerTask) (message : DecryptedDhtMessage)
    (msg : Message) (response : StoredMessagesResponse)
    (hsucc : message.success = some msg)
    (hparse : t.env.response_from_binary msg.body = .ok response) :
    (∀ m ∈ response.messages,
      (process_incoming_stored_message t m).toOption.isSome =
        specEntryForwardable t.env t.node_identity m) ∧
    (handle_stored_messages t message).downstream.length =
      (response.messages.filter
        (fun m => specEntryForwardable t.env t.node_identity m)).length := by
  constructor
  · intro m _
    exact process_toOption_isSome t m
  · unfold handle_stored_messages
    simp only [hsucc, hparse]
    show ((response.messages.map (fun m => process_incoming_stored_message t m)).filterMap
      (fun r => r.toOption)).length = _
    rw [List.filterMap_map, length_filterMap_isSome]
    congr 1
    apply List.filter_congr
    intro m _
    show (process_incoming_stored_message t m).toOption.isSome =
      specEntryForwardable t.env t.node_identity m
    exact process_toOption_isSome t m

theorem C2_witness :
    egResponseMsg.success = some ⟨[1]⟩ ∧
    egTask.env.response_from_binary (Message.mk [1]).body = .ok ⟨[egStored]⟩ ∧
    ((∀ m ∈ (StoredMessagesResponse.mk [egStored]).messages,
      (process_incoming_stored_message egTask m).toOption.isSome =
        specEntryForwardable egTask.env egTask.node_identity m) ∧
    (handle_stored_messages egTask egResponseMsg).downstream.length =
      ((StoredMessagesResponse.mk [egStored]).messages.filter
        (fun m => specEntryForwardable egTask.env egTask.node_identity m)).length) :=
  ⟨rfl, rfl, C2_entry_forwarded_iff egTask egResponseMsg ⟨[1]⟩ ⟨[egStored]⟩ rfl rfl⟩

/-- C5: an in-region `SafRequestMessages` request whose body parses produces
exactly one outbound message: direct-by-public-key to the requester,
destination header `Undisclosed`, encryption encrypt-for-destination, and
message type `SafStoredMessages`; this outbound is sent even when the
filtered result set is empty, and the handler never emits more than one
outbound per request. -/
theorem C5_single_outbound_reply (t : MessageHandlerTask) (message : DecryptedDhtMessage)
    (msg : Message) (req : StoredMessagesRequest)
    (hsucc : message.success = some msg)
    (hparse : t.env.request_from_binary msg.body = .ok req)
    (hregion : t.env.in_network_region message.source_peer.node_id t.node_identity.node_id
        t.config.saf_num_closest_nodes = .ok true) :
    (∃ resp, (handle_stored_messages_request t message).outbound =
      [{ broadcast_strategy := .directPublicKey message.source_peer.public_key,
         destination := .undisclosed,
         encryption := .encryptForDestination,
         message_type := .SAFStoredMessages,
         body := resp }]) ∧
    ∀ (t2 : MessageHandlerTask) (message2 : DecryptedDhtMessage),
      (handle_stored_messages_request t2 message2).outbound.length ≤ 1 := by
  constructor
  · unfold handle_stored_messages_request
    simp only [hsucc, hparse, hregion]
    rcases hsend : t.env.send_result with e | u <;> exact ⟨_, rfl⟩
  · intro t2 message2
    unfold handle_stored_messages_request
    rcases h0 : message2.success with _ | msg2 <;> simp only [h0]
    · simp
    · rcases h1 : t2.env.request_from_binary msg2.body with e | req2 <;> simp only [h1]
      · simp
      · rcases h2 : t2.env.in_network_region message2.source_peer.node_id
            t2.node_identity.node_id t2.config.saf_num_closest_nodes with e | b
        · simp only [h2]
          simp
        · cases b
          · simp only [h2]
            simp
          · simp only [h2]
            rcases h3 : t2.env.send_result with e | u <;> simp [h3]

theorem C5_witness :
    egRequestMsg.success = some ⟨[0]⟩ ∧
    egTask.env.request_from_binary (Message.mk [0]).body = .ok ⟨none⟩ ∧
    egTask.env.in_network_region egRequestMsg.source_peer.node_id
      egTask.node_identity.node_id egTask.config.saf_num_closest_nodes = .ok true ∧
    ((∃ resp, (handle_stored_messages_request egTask egRequestMsg).outbound =
      [{ broadcast_strategy := .directPublicKey egRequestMsg.source_peer.public_key,
         destination := .undisclosed,
         encryption := .encryptForDestination,
         message_type := .SAFStoredMessages,
         body := resp }]) ∧
    ∀ (t2 : MessageHandlerTask) (message2 : DecryptedDhtMessage),
      (handle_stored_messages_request t2 message2).outbound.length ≤ 1) :=
  ⟨rfl, rfl, rfl,
    C5_single_outbound_reply egTask egRequestMsg ⟨[0]⟩ ⟨none⟩ rfl rfl rfl⟩

/-- C1: the response served to an in-region requester whose body parses as a
`StoredMessagesRequest` consists of the unexpired store entries that satisfy
the `since` filter and whose declared destination matches the requester,
truncated to `saf_max_returned_messages`: its content is exactly the spec
filter result when that fits the cap, every returned entry satisfies the
filter, and its length is `min(filtered_count, saf_max_returned_messages)`. -/
theorem C1_request_served_exact_filter (t : MessageHandlerTask) (message : DecryptedDhtMessage)
    (msg : Message) (req : StoredMessagesRequest)
    (hsucc : message.success = some msg)
    (hparse : t.env.request_from_binary msg.body = .ok req)
    (hregion : t.env.in_network_region message.source_peer.node_id t.node_identity.node_id
        t.config.saf_num_closest_nodes = .ok true) :
    ∃ send, (handle_stored_messages_request t message).outbound = [send] ∧
      send.body.messages =
        (specFilteredEntries t.now t.store req.since message.source_peer).take
          t.config.saf_max_returned_messages ∧
      send.body.messages.length =
        min (specFilteredEntries t.now t.store req.since message.source_peer).length
          t.config.saf_max_returned_messages ∧
      (∀ m ∈ send.body.messages,
        m ∈ specFilteredEntries t.now t.store req.since message.source_peer) ∧
      ((specFilteredEntries t.now t.store req.since message.source_peer).length ≤
          t.config.saf_max_returned_messages →
        send.body.messages = specFilteredEntries t.now t.store req.since message.source_peer) := by
  have hmsg := handler_messages_eq t.now t.store req.since message.source_peer
    t.config.saf_max_returned_messages
  unfold handle_stored_messages_request
  simp only [hsucc, hparse, hregion]
  rcases hsend : t.env.send_result with e | u <;>
  · refine ⟨_, rfl, hmsg, ?_, ?_, ?_⟩
    · rw [hmsg, List.length_take]
      exact Nat.min_comm _ _
    · intro m hm
      rw [hmsg] at hm
      exact List.take_subset _ _ hm
    · intro hlen
      rw [hmsg]
      exact List.take_of_length_le hlen

theorem C1_witness :
    egRequestMsg.success = some ⟨[0]⟩ ∧
    egTask.env.request_from_binary (Message.mk [0]).body = .ok ⟨none⟩ ∧
    egTask.env.in_network_region egRequestMsg.source_peer.node_id
      egTask.node_identity.node_id egTask.config.saf_num_closest_nodes = .ok true ∧
    (∃ send, (handle_stored_messages_request egTask egRequestMsg).outbound = [send] ∧
      send.body.messages =
        (specFilteredEntries egTask.now egTask.store (StoredMessagesRequest.mk none).since
          egRequestMsg.source_peer).take egTask.config.saf_max_returned_messages ∧
      send.body.messages.length =
        min (specFilteredEntries egTask.now egTask.store (StoredMessagesRequest.mk none).since
          egRequestMsg.source_peer).length egTask.config.saf_max_returned_messages ∧
      (∀ m ∈ send.body.messages,
        m ∈ specFilteredEntries egTask.now egTask.store (StoredMessagesRequest.mk none).since
          egRequestMsg.source_peer) ∧
      ((specFilteredEntries egTask.now egTask.store (StoredMessagesRequest.mk none).since
          egRequestMsg.source_peer).length ≤ egTask.config.saf_max_returned_messages →
        send.body.messages = specFilteredEntries egTask.now egTask.store
          (StoredMessagesRequest.mk none).since egRequestMsg.source_peer)) :=
  ⟨rfl, rfl, rfl,
    C1_request_served_exact_filter egTask egRequestMsg ⟨[0]⟩ ⟨none⟩ rfl rfl rfl⟩

end Tari
